import Mathlib

/-!
Shallow embedding of the core of quest_steamvr_fbt_tool.py: device
resolution (`get_device_index`), pose transform (`get_position`,
`get_euler_angle`), calibration-offset computation and the streaming
loop of `run_tracker_server`.

Numeric values are modelled as exact rationals.  The math library's
`asin` and `atan` are external collaborators of the program; they are
modelled as a parameter structure `MathOps` whose one assumed property
(`asin x = 0` exactly when `x = 0`) holds of the real arcsine.
Python's float division raises `ZeroDivisionError` on a zero divisor,
so division in the embedding is the checked `fdiv`.  Exceptions are
modelled with `Except Err`; the `error_handling`-and-return path of
`run_tracker_server` becomes the `Outcome.aborted` result.
-/

/-- Error kinds raised by the program.  `deviceNotFound` is the
`RuntimeError` of `get_device_index`, `invalidDeviceCount` the failed
`assert 0 < len(device_indexes) < 9`, `zeroDivision` Python's
`ZeroDivisionError`, and `readFailure` / `sendFailure` the failures of
the runtime pose read and the UDP transport. -/
inductive Err where
  | deviceNotFound
  | invalidDeviceCount
  | zeroDivision
  | readFailure
  | sendFailure
deriving DecidableEq, Repr

/-- The math library collaborators used by `get_euler_angle`.  The one
property assumed of `asin` (it vanishes exactly at zero) is true of the
real arcsine and of IEEE `math.asin`. -/
structure MathOps where
  asin : ℚ → ℚ
  atan : ℚ → ℚ
  asin_eq_zero_iff : ∀ x : ℚ, asin x = 0 ↔ x = 0

/-- A concrete instance of the math collaborators, used to evaluate the
model on concrete inputs.  The identity function vanishes exactly at
zero, as the real arcsine and arctangent do. -/
def mathOps0 : MathOps :=
  ⟨fun x => x, fun x => x, fun _ => Iff.rfl⟩

/-- The 3x4 `mDeviceToAbsoluteTracking` matrix (rows 0-2 of the affine
device-to-world transform; the code never touches a fourth row).
`mRC` is the entry the Python code reads as `matrix[R][C]`. -/
structure Mat where
  m00 : ℚ
  m01 : ℚ
  m02 : ℚ
  m03 : ℚ
  m10 : ℚ
  m11 : ℚ
  m12 : ℚ
  m13 : ℚ
  m20 : ℚ
  m21 : ℚ
  m22 : ℚ
  m23 : ℚ
deriving DecidableEq, Repr

/-- Python float division: raises `ZeroDivisionError` on a zero
divisor, otherwise divides exactly. -/
def fdiv (a b : ℚ) : Except Err ℚ :=
  if b = 0 then Except.error Err.zeroDivision else Except.ok (a / b)

/-- `get_device_index`, unrolled over the runtime's slot enumeration.
`slots` is the enumeration; a slot index at or beyond `slots.length`
reads the empty serial string (the end-of-enumeration sentinel).
`base` is the index of the first slot of `slots` in the full
enumeration.  Mirrors the source order of tests: the equality match is
tried before the empty-string sentinel check. -/
def get_device_index_from (device_name : String) (ignore : Bool) :
    List String → Nat → Except Err (Option Nat)
  | [], base =>
      if ("" == device_name) then Except.ok (some base)
      else if ignore then Except.ok none
      else Except.error Err.deviceNotFound
  | s :: rest, base =>
      if (s == device_name) then Except.ok (some base)
      else if (s == "") then
        (if ignore then Except.ok none else Except.error Err.deviceNotFound)
      else get_device_index_from device_name ignore rest (base + 1)

/-- `get_device_index(device_name, ignore)` run against the runtime
enumeration `slots`. -/
def get_device_index (slots : List String) (device_name : String) (ignore : Bool) :
    Except Err (Option Nat) :=
  get_device_index_from device_name ignore slots 0

/-- `get_position`: the translation column of the pose matrix. -/
def get_position (m : Mat) : ℚ × ℚ × ℚ :=
  (m.m03, m.m13, m.m23)

/-- `get_euler_angle`: `rot_y = asin(m[0][2])`; when `rot_y != 0`,
`rot_x = atan(-m[1][2]/m[2][2])` and `rot_z = atan(-m[0][1]/m[0][0])`
(computed in that order); otherwise `rot_x = atan(m[2][1]/m[1][1])`
and `rot_z = 0`.  Divisions are Python float divisions and raise on a
zero divisor. -/
def get_euler_angle (ops : MathOps) (m : Mat) : Except Err (ℚ × ℚ × ℚ) :=
  let rot_y := ops.asin m.m02
  if rot_y ≠ 0 then do
    let q1 ← fdiv (-m.m12) m.m22
    let q2 ← fdiv (-m.m01) m.m00
    Except.ok (ops.atan q1, rot_y, ops.atan q2)
  else do
    let q ← fdiv m.m21 m.m11
    Except.ok (ops.atan q, rot_y, 0)

/-- Slot serials strictly before the end-of-enumeration sentinel: the
devices the resolver can actually reach. -/
def reachable_slots (slots : List String) : List String :=
  slots.takeWhile (fun t => t != "")

-- Sanity examples from the spec's resolver scenario.
/-- One outbound OSC/UDP message: the address string and its numeric
payload, as passed to `client.send_message`. -/
structure Msg where
  addr : String
  args : List ℚ
deriving DecidableEq, Repr

/-- The address string the source builds for channel `n` and endpoint
`ch`, as in the f-strings of `run_tracker_server`. -/
def trackerAddr (n : Nat) (ch : String) : String :=
  "/tracking/trackers/" ++ toString n ++ "/" ++ ch

/-- The four messages `run_tracker_server` sends for channel `n` from
pose matrix `m`, euler angles `r` and calibration offset `y_delta`, in
source order: position (with negated X and offset Y), then rotation
x, y, z. -/
def track_group (n : Nat) (m : Mat) (r : ℚ × ℚ × ℚ) (y_delta : ℚ) : List Msg :=
  [⟨trackerAddr n "position", [-m.m03, m.m13 + y_delta, m.m23]⟩,
   ⟨trackerAddr n "rotation/x", [r.1]⟩,
   ⟨trackerAddr n "rotation/y", [r.2.1]⟩,
   ⟨trackerAddr n "rotation/z", [r.2.2]⟩]

/-- The transport collaborator: sends messages in order; `sendOk c`
tells whether the `c`-th send of the tick succeeds.  Returns the
messages actually sent and the error of the first failing send, which
aborts the remaining sends. -/
def send_all (sendOk : Nat → Bool) : Nat → List Msg → List Msg × Option Err
  | _, [] => ([], none)
  | c, msg :: rest =>
      if sendOk c then
        let r := send_all sendOk (c + 1) rest
        (msg :: r.1, r.2)
      else ([], some Err.sendFailure)

/-- The per-device body of the tick's `for i, j in
enumerate(device_indexes)` loop.  `l` carries the `(i, j)` pairs still
to process and `c` the number of sends already made this tick.  For
each device the pose matrix is fetched, transformed (the euler
extraction may raise), and the four messages of `track_group` are
sent; the first failure stops the tick and is returned. -/
def run_devices (ops : MathOps) (poses : Nat → Mat) (sendOk : Nat → Bool)
    (y_delta : ℚ) : List (Nat × Nat) → Nat → List Msg × Option Err
  | [], _ => ([], none)
  | (i, j) :: rest, c =>
      let m := poses j
      match get_euler_angle ops m with
      | Except.error e => ([], some e)
      | Except.ok r =>
          let s := send_all sendOk c (track_group (i + 1) m r y_delta)
          match s.2 with
          | some e => (s.1, some e)
          | none =>
              let k := run_devices ops poses sendOk y_delta rest (c + 4)
              (s.1 ++ k.1, k.2)

/-- The external inputs of one tick: the bulk pose read (`none` models
a runtime read failure) and the transport's per-send success. -/
structure TickEnv where
  readPoses : Option (Nat → Mat)
  sendOk : Nat → Bool

/-- One tick of the streaming loop, after the termination-flag check:
the single bulk pose read followed by per-channel message emission.
Returns the messages sent this tick and the error, if any, that ends
the tick early. -/
def run_tick (ops : MathOps) (env : TickEnv) (device_indexes : List Nat)
    (y_delta : ℚ) : List Msg × Option Err :=
  match env.readPoses with
  | none => ([], some Err.readFailure)
  | some poses => run_devices ops poses env.sendOk y_delta device_indexes.enum 0

/-- How a run of the streaming loop ends: the cooperative termination
flag (clean, not an error), an error surfaced via `error_handling`, or
the observation window (`fuel`) ran out while the loop was still
running. -/
inductive Outcome where
  | terminated
  | aborted (e : Err)
  | outOfFuel
deriving DecidableEq, Repr

/-- The `while True` streaming loop of `run_tracker_server`, observed
for `fuel` ticks starting at tick `t`.  Each tick first polls the
termination flag; if set, the loop exits cleanly with no messages sent
that tick.  Otherwise the tick body runs; any failure aborts the loop
immediately and permanently. -/
def run_loop (ops : MathOps) (env : Nat → TickEnv) (flag : Nat → Bool)
    (device_indexes : List Nat) (y_delta : ℚ) : Nat → Nat → List Msg × Outcome
  | 0, _ => ([], Outcome.outOfFuel)
  | fuel + 1, t =>
      if flag t then ([], Outcome.terminated)
      else
        match run_tick ops (env t) device_indexes y_delta with
        | (msgs, some e) => (msgs, Outcome.aborted e)
        | (msgs, none) =>
            let r := run_loop ops env flag device_indexes y_delta fuel (t + 1)
            (msgs ++ r.1, r.2)

/-- The calibration step of `run_tracker_server`: with no standard
device the offset is `0`; with standard device `s` it resolves `s`
with `ignore = False`, reads the reference pose once from the
pre-loop bulk read `posesInit`, and returns the negated Y translation
plus `delta`.  (The resolver called with `ignore = False` never
returns `none`; if it did, the Python `poses[None]` lookup would
itself raise, modelled by the error branch.) -/
def compute_y_delta (slots : List String) (posesInit : Nat → Mat)
    (standard_device : Option String) (delta : ℚ) : Except Err ℚ :=
  match standard_device with
  | none => Except.ok 0
  | some s =>
      match get_device_index slots s false with
      | Except.error e => Except.error e
      | Except.ok none => Except.error Err.deviceNotFound
      | Except.ok (some i) => Except.ok (-1 * (posesInit i).m13 + delta)

/-- The startup resolution loop: resolve each configured serial in
order with the configured ignore flag, dropping `None` results,
propagating the first resolution error. -/
def resolve_devices (slots : List String) (use_device : List String)
    (ignore : Bool) : Except Err (List Nat) :=
  match use_device with
  | [] => Except.ok []
  | d :: rest =>
      match get_device_index slots d ignore with
      | Except.error e => Except.error e
      | Except.ok oi =>
          match resolve_devices slots rest ignore with
          | Except.error e => Except.error e
          | Except.ok idxs =>
              match oi with
              | some i => Except.ok (i :: idxs)
              | none => Except.ok idxs

/-- The external world of a whole `run_tracker_server` run: the
runtime's slot enumeration, the calibration-time bulk pose read, the
per-tick inputs, and the termination flag as seen at each tick. -/
structure ServerEnv where
  slots : List String
  posesInit : Nat → Mat
  tickEnv : Nat → TickEnv
  flag : Nat → Bool

/-- The part of `run_tracker_server` after successful device
resolution and the count assert: calibration then the streaming loop. -/
def run_calibrated (ops : MathOps) (env : ServerEnv)
    (standard_device : Option String) (delta : ℚ) (device_indexes : List Nat)
    (fuel : Nat) : List Msg × Outcome :=
  match compute_y_delta env.slots env.posesInit standard_device delta with
  | Except.error e => ([], Outcome.aborted e)
  | Except.ok y_delta =>
      run_loop ops env.tickEnv env.flag device_indexes y_delta fuel 0

/-- `run_tracker_server`: resolve the configured devices, check
`assert 0 < len(device_indexes) < 9`, compute the calibration offset,
then stream.  Any startup failure aborts before any message is sent. -/
def run_tracker_server (ops : MathOps) (env : ServerEnv)
    (use_device : List String) (ignore_not_found_device : Bool)
    (standard_device : Option String) (delta : ℚ) (fuel : Nat) :
    List Msg × Outcome :=
  match resolve_devices env.slots use_device ignore_not_found_device with
  | Except.error e => ([], Outcome.aborted e)
  | Except.ok device_indexes =>
      if 0 < device_indexes.length ∧ device_indexes.length < 9 then
        run_calibrated ops env standard_device delta device_indexes fuel
      else ([], Outcome.aborted Err.invalidDeviceCount)

example : get_device_index ["A", "B", ""] "B" false = Except.ok (some 1) := rfl
example : get_device_index ["A", "B", ""] "C" false = Except.error Err.deviceNotFound := rfl
example : get_device_index ["A", "B", ""] "C" true = Except.ok none := rfl
example : get_device_index ["A", "B", ""] "" true = Except.ok (some 2) := rfl

/-- Characterization of the resolver for a nonempty requested serial:
first exact match wins if it lies before the sentinel, else `none` or
`DeviceNotFound` according to the ignore flag. -/
theorem get_device_index_from_eq (name : String) (ignore : Bool) (hn : name ≠ "") :
    ∀ (slots : List String) (base : Nat),
    get_device_index_from name ignore slots base =
      if name ∈ reachable_slots slots then
        Except.ok (some (base + slots.findIdx (fun t => t == name)))
      else if ignore then Except.ok none
      else Except.error Err.deviceNotFound := by
  intro slots
  induction slots with
  | nil =>
      intro base
      have h1 : ("" == name) = false := by
        simp [Ne.symm hn]
      simp [get_device_index_from, reachable_slots, h1]
  | cons s rest ih =>
      intro base
      by_cases hs : s = name
      · subst hs
        have h1 : (s == s) = true := by simp
        have h2 : (s != "") = true := by simp [hn]
        simp [get_device_index_from, reachable_slots, List.takeWhile_cons, h2,
          List.findIdx_cons, h1]
      · have h1 : (s == name) = false := by simp [hs]
        by_cases he : s = ""
        · subst he
          have h2 : (("" : String) != "") = false := by simp
          simp [get_device_index_from, reachable_slots, List.takeWhile_cons, h1, h2]
        · have h2 : (s != "") = true := by simp [he]
          have h3 : name ∈ reachable_slots (s :: rest) ↔ name ∈ reachable_slots rest := by
            simp [reachable_slots, List.takeWhile_cons, h2, Ne.symm hs]
          rw [get_device_index_from]
          rw [h1]
          simp only [if_false, Bool.false_eq_true]
          have h4 : (s == "") = false := by simp [he]
          rw [h4]
          simp only [Bool.false_eq_true, if_false]
          rw [ih (base + 1)]
          by_cases hm : name ∈ reachable_slots rest
          · rw [if_pos hm, if_pos (h3.mpr hm)]
            rw [List.findIdx_cons, h1]
            simp only [cond_false]
            congr 1
            congr 1
            omega
          · rw [if_neg hm, if_neg (fun h => hm (h3.mp h))]

/-- Top-level form of the resolver characterization. -/
theorem get_device_index_eq (slots : List String) (name : String) (ignore : Bool)
    (hn : name ≠ "") :
    get_device_index slots name ignore =
      if name ∈ reachable_slots slots then
        Except.ok (some (slots.findIdx (fun t => t == name)))
      else if ignore then Except.ok none
      else Except.error Err.deviceNotFound := by
  have h := get_device_index_from_eq name ignore hn slots 0
  simpa [get_device_index] using h

/-- Resolving the empty serial always matches the sentinel slot itself:
the returned index is the number of reachable (pre-sentinel) slots. -/
theorem get_device_index_from_empty (ignore : Bool) :
    ∀ (slots : List String) (base : Nat),
    get_device_index_from "" ignore slots base =
      Except.ok (some (base + (reachable_slots slots).length)) := by
  intro slots
  induction slots with
  | nil => intro base; simp [get_device_index_from, reachable_slots]
  | cons s rest ih =>
      intro base
      by_cases he : s = ""
      · subst he
        simp [get_device_index_from, reachable_slots, List.takeWhile_cons]
      · have h1 : (s == "") = false := by simp [he]
        have h2 : (s != "") = true := by simp [he]
        rw [get_device_index_from, h1]
        simp only [Bool.false_eq_true, if_false]
        rw [ih (base + 1)]
        have : reachable_slots (s :: rest) = s :: reachable_slots rest := by
          simp [reachable_slots, List.takeWhile_cons, h2]
        rw [this]
        simp only [List.length_cons]
        congr 2
        omega

/-- With `ignore = False` the resolver never returns `None`: it either
finds the device or raises. -/
theorem get_device_index_false_ne_none (slots : List String) (name : String) :
    get_device_index slots name false ≠ Except.ok none := by
  suffices h : ∀ (l : List String) (base : Nat),
      get_device_index_from name false l base ≠ Except.ok none by
    exact h slots 0
  intro l
  induction l with
  | nil =>
      intro base
      by_cases h1 : ("" == name) = true <;> simp [get_device_index_from, h1]
  | cons s rest ih =>
      intro base
      by_cases h1 : (s == name) = true
      · simp [get_device_index_from, h1]
      · by_cases h2 : (s == "") = true <;>
          simp [get_device_index_from, h1, h2, ih (base + 1)]

/-- When every send succeeds, `send_all` sends exactly its message
list, in order, with no error. -/
theorem send_all_ok (sendOk : Nat → Bool) (hs : ∀ c, sendOk c = true) :
    ∀ (msgs : List Msg) (c : Nat), send_all sendOk c msgs = (msgs, none) := by
  intro msgs
  induction msgs with
  | nil => intro c; rfl
  | cons m rest ih => intro c; simp [send_all, hs c, ih (c + 1)]

/-- When the bulk read succeeded, every send succeeds and every euler
extraction succeeds, the per-device loop emits exactly the
`track_group` of each enumerated device, concatenated in order. -/
theorem run_devices_ok (ops : MathOps) (poses : Nat → Mat) (sendOk : Nat → Bool)
    (y_delta : ℚ) (f : Nat → ℚ × ℚ × ℚ) (hs : ∀ c, sendOk c = true) :
    ∀ (l : List (Nat × Nat)) (c : Nat),
    (∀ p ∈ l, get_euler_angle ops (poses p.2) = Except.ok (f p.2)) →
    run_devices ops poses sendOk y_delta l c =
      (l.flatMap fun p => track_group (p.1 + 1) (poses p.2) (f p.2) y_delta, none) := by
  intro l
  induction l with
  | nil => intro c _; rfl
  | cons p rest ih =>
      intro c hall
      obtain ⟨i, j⟩ := p
      have h1 : get_euler_angle ops (poses j) = Except.ok (f j) :=
        hall (i, j) (List.mem_cons_self _ _)
      have h2 : ∀ q ∈ rest, get_euler_angle ops (poses q.2) = Except.ok (f q.2) :=
        fun q hq => hall q (List.mem_cons_of_mem _ hq)
      simp [run_devices, h1, send_all_ok sendOk hs, ih (c + 4) h2]

/-- Each short-circuit of `run_devices`: a failing euler extraction or
a failing send ends the tick with the messages sent so far and that
error. -/
theorem run_devices_cons (ops : MathOps) (poses : Nat → Mat) (sendOk : Nat → Bool)
    (y_delta : ℚ) (i j : Nat) (rest : List (Nat × Nat)) (c : Nat) :
    run_devices ops poses sendOk y_delta ((i, j) :: rest) c =
      match get_euler_angle ops (poses j) with
      | Except.error e => ([], some e)
      | Except.ok r =>
          let s := send_all sendOk c (track_group (i + 1) (poses j) r y_delta)
          match s.2 with
          | some e => (s.1, some e)
          | none =>
              let k := run_devices ops poses sendOk y_delta rest (c + 4)
              (s.1 ++ k.1, k.2) := rfl

/-- The index of the first empty serial equals the number of reachable
slots. -/
theorem findIdx_empty_eq_reachable_length :
    ∀ slots : List String,
    slots.findIdx (fun t => t == "") = (reachable_slots slots).length := by
  intro slots
  induction slots with
  | nil => simp [reachable_slots]
  | cons s rest ih =>
      by_cases he : s = ""
      · subst he
        simp [reachable_slots, List.takeWhile_cons, List.findIdx_cons]
      · have h1 : (s == "") = false := by simp [he]
        have h2 : (s != "") = true := by simp [he]
        simp [reachable_slots, List.takeWhile_cons, List.findIdx_cons, h1, h2] at ih ⊢
        omega

/-- The streaming loop, when allowed to run at all, exits cleanly the
moment the flag is up, and its `terminated` outcome can arise only
from the flag having been observed up. -/
theorem run_loop_terminated_iff_flag (ops : MathOps) (env : Nat → TickEnv)
    (flag : Nat → Bool) (idxs : List Nat) (y_delta : ℚ) :
    ∀ (fuel t : Nat),
    (run_loop ops env flag idxs y_delta fuel t).2 = Outcome.terminated →
    ∃ s, flag s = true := by
  intro fuel
  induction fuel with
  | zero => intro t h; simp [run_loop] at h
  | succ n ih =>
      intro t h
      rw [run_loop] at h
      by_cases hf : flag t = true
      · exact ⟨t, hf⟩
      · simp only [hf, Bool.false_eq_true, if_false] at h
        revert h
        match hrt : run_tick ops (env t) idxs y_delta with
        | (msgs, some e) => intro h; simp at h
        | (msgs, none) =>
            intro h
            simp only at h
            exact ih (t + 1) h

/-- Claim C4: device resolution enumerates slots from index 0 upward
and returns the index of the first slot whose serial string equals the
requested serial under exact equality; when an empty serial (the
end-of-enumeration sentinel) is reached before any match, `ignore =
true` yields NotFound (`none`, no error) and `ignore = false` raises
`DeviceNotFound`.  (A match is found exactly when the requested serial
occurs among the reachable slots, or is itself the empty sentinel
string, which matches the sentinel slot.) -/
theorem device_resolution_first_match (slots : List String) (name : String)
    (ignore : Bool) :
    get_device_index slots name ignore =
      if name ∈ reachable_slots slots ∨ name = "" then
        Except.ok (some (slots.findIdx (fun t => t == name)))
      else if ignore then Except.ok none
      else Except.error Err.deviceNotFound := by
  by_cases hn : name = ""
  · subst hn
    have h1 := get_device_index_from_empty ignore slots 0
    have h2 := findIdx_empty_eq_reachable_length slots
    rw [if_pos (Or.inr rfl)]
    simpa [get_device_index, h2] using h1
  · rw [get_device_index_eq slots name ignore hn]
    by_cases hm : name ∈ reachable_slots slots
    · rw [if_pos hm, if_pos (Or.inl hm)]
    · have hcond : ¬(name ∈ reachable_slots slots ∨ name = "") := by
        intro h
        cases h with
        | inl h1 => exact hm h1
        | inr h2 => exact hn h2
      rw [if_neg hm, if_neg hcond]

/-- Claim C10: for either ignore flag, resolving the empty-string
serial never returns NotFound and never raises: the equality match is
tested before the end-of-enumeration check, so the sentinel slot
itself matches and its index — the count of enumerated devices — is
returned. -/
theorem empty_serial_resolves_to_sentinel_index (slots : List String)
    (ignore : Bool) :
    get_device_index slots "" ignore =
      Except.ok (some (reachable_slots slots).length) := by
  have h := get_device_index_from_empty ignore slots 0
  simpa [get_device_index] using h

/-- Claim C9: the calibration-time resolution of the reference device
is performed with `ignore = false`, so it can never return NotFound
(first conjunct); consequently, when the configured reference serial
is absent from the runtime enumeration, startup fails fatally with
`DeviceNotFound` before any message is sent, for either value of the
ignore-missing-device flag (second conjunct). -/
theorem missing_reference_device_fatal (ops : MathOps) (env : ServerEnv)
    (use_device : List String) (ignore : Bool) (s : String) (delta : ℚ)
    (fuel : Nat) (idxs : List Nat)
    (hs : s ≠ "")
    (hmiss : s ∉ reachable_slots env.slots)
    (hres : resolve_devices env.slots use_device ignore = Except.ok idxs)
    (hcnt : 0 < idxs.length ∧ idxs.length < 9) :
    (∀ (slots2 : List String) (name : String),
       get_device_index slots2 name false ≠ Except.ok none) ∧
    run_tracker_server ops env use_device ignore (some s) delta fuel =
      ([], Outcome.aborted Err.deviceNotFound) := by
  constructor
  · exact fun slots2 name => get_device_index_false_ne_none slots2 name
  · have hdev : get_device_index env.slots s false = Except.error Err.deviceNotFound := by
      have h := get_device_index_eq env.slots s false hs
      rw [if_neg hmiss] at h
      simpa using h
    have hyd : compute_y_delta env.slots env.posesInit (some s) delta =
        Except.error Err.deviceNotFound := by
      simp [compute_y_delta, hdev]
    unfold run_tracker_server
    rw [hres]
    simp only [if_pos hcnt]
    unfold run_calibrated
    rw [hyd]

/-- `fdiv` with a nonzero divisor divides exactly. -/
theorem fdiv_eq_ok (a b : ℚ) (h : b ≠ 0) : fdiv a b = Except.ok (a / b) := by
  simp [fdiv, h]

/-- `fdiv` with a zero divisor raises. -/
theorem fdiv_eq_err (a b : ℚ) (h : b = 0) :
    fdiv a b = Except.error Err.zeroDivision := by
  simp [fdiv, h]

/-- A non-degenerate pose matrix: `m02 = 1` (so any zero-preserving
`asin` is nonzero on it), both branch divisors nonzero. -/
def matA : Mat := ⟨1, 2, 1, 1, 0, 1, 3, 2, 0, 0, 1, 3⟩

/-- A degenerate (gimbal-lock) pose matrix: `m02 = 0`, `m11 = 1`. -/
def matB : Mat := ⟨1, 0, 0, 4, 0, 1, 0, 5, 0, 2, 1, 6⟩

/-- A reference-device pose whose Y translation is `6/5 = 1.2`. -/
def matRef : Mat := ⟨1, 0, 0, 0, 0, 1, 0, 6/5, 0, 0, 1, 0⟩

/-- Server environment for the reference-device witnesses: one device
with serial A, every pose read returning `matA`, no failures. -/
def envC9 : ServerEnv :=
  ⟨["A"], fun _ => matA, fun _ => ⟨some (fun _ => matA), fun _ => true⟩,
   fun _ => false⟩

theorem missing_reference_device_fatal_witness :
    run_tracker_server mathOps0 envC9 ["A"] true (some "REF") 0 1 =
      ([], Outcome.aborted Err.deviceNotFound) :=
  (missing_reference_device_fatal mathOps0 envC9 ["A"] true "REF" 0 1 [0]
    (by decide) (by decide) rfl (by decide)).2

/-- Claim C2 (amended): for every matrix with `m[0][2]` in `[-1, 1]`
the extracted position is `(m[0][3], m[1][3], m[2][3])` and `rotY =
asin(m[0][2])` vanishes exactly when `m[0][2]` does; when `rotY != 0`
and the divisors `m[2][2]`, `m[0][0]` are nonzero the extraction
returns `(atan(-m[1][2]/m[2][2]), rotY, atan(-m[0][1]/m[0][0]))`, and
when `m[0][2] = 0` and `m[1][1]` is nonzero it returns
`(atan(m[2][1]/m[1][1]), 0, 0)`; when the active branch's divisor is
zero the extraction raises a division error instead of returning
(see the counterexample). -/
theorem euler_extraction_branches (ops : MathOps) (m : Mat)
    (hdom1 : -1 ≤ m.m02) (hdom2 : m.m02 ≤ 1) :
    get_position m = (m.m03, m.m13, m.m23) ∧
    (ops.asin m.m02 = 0 ↔ m.m02 = 0) ∧
    (ops.asin m.m02 ≠ 0 → m.m22 ≠ 0 → m.m00 ≠ 0 →
      get_euler_angle ops m =
        Except.ok (ops.atan (-m.m12 / m.m22), ops.asin m.m02,
          ops.atan (-m.m01 / m.m00))) ∧
    (m.m02 = 0 → m.m11 ≠ 0 →
      get_euler_angle ops m =
        Except.ok (ops.atan (m.m21 / m.m11), 0, 0)) := by
  refine ⟨rfl, ops.asin_eq_zero_iff m.m02, ?_, ?_⟩
  · intro h1 h2 h3
    simp only [get_euler_angle, if_pos h1, fdiv_eq_ok (-m.m12) m.m22 h2,
      fdiv_eq_ok (-m.m01) m.m00 h3]
    rfl
  · intro h0 h4
    have hz : ops.asin m.m02 = 0 := (ops.asin_eq_zero_iff m.m02).mpr h0
    have hnn : ¬(ops.asin m.m02 ≠ 0) := fun hc => hc hz
    simp only [get_euler_angle, if_neg hnn, fdiv_eq_ok m.m21 m.m11 h4, hz]
    rfl

/-- A matrix hitting the degenerate branch with a zero divisor:
`m02 = 0` selects the gimbal-lock branch, and `m11 = 0` makes
`m[2][1]/m[1][1]` a division by zero. -/
def matC2x : Mat := ⟨1, 0, 0, 0, 0, 0, 0, 0, 0, 1, 1, 0⟩

/-- Claim C2, counterexample: at `matC2x` (`m[0][2] = 0`,
`m[1][1] = 0`, within the claimed domain) the extraction raises
`ZeroDivisionError` instead of returning a triple, refuting the
claim's unconditional "returns". -/
theorem euler_extraction_branches_counterexample :
    get_euler_angle mathOps0 matC2x = Except.error Err.zeroDivision := rfl

theorem euler_extraction_branches_witness :
    get_euler_angle mathOps0 matA = Except.ok (-3, 1, -2) := by
  have h := (euler_extraction_branches mathOps0 matA (by decide) (by decide)).2.2.1
    (by decide) (by decide) (by decide)
  rw [h]
  norm_num [mathOps0, matA]

/-- Claim C8 (amended): a zero divisor in the active branch of the
Euler extraction is not propagated as a non-finite float: Python float
division raises `ZeroDivisionError`, so the extraction fails (is not
total) on every such matrix — in order of evaluation, `m[2][2]` then
`m[0][0]` in the non-degenerate branch, `m[1][1]` in the degenerate
branch. -/
theorem division_by_zero_raises (ops : MathOps) (m : Mat) :
    (ops.asin m.m02 ≠ 0 → m.m22 = 0 →
      get_euler_angle ops m = Except.error Err.zeroDivision) ∧
    (ops.asin m.m02 ≠ 0 → m.m22 ≠ 0 → m.m00 = 0 →
      get_euler_angle ops m = Except.error Err.zeroDivision) ∧
    (ops.asin m.m02 = 0 → m.m11 = 0 →
      get_euler_angle ops m = Except.error Err.zeroDivision) := by
  refine ⟨?_, ?_, ?_⟩
  · intro h1 h2
    simp only [get_euler_angle, if_pos h1, fdiv_eq_err (-m.m12) m.m22 h2]
    rfl
  · intro h1 h2 h3
    simp only [get_euler_angle, if_pos h1, fdiv_eq_ok (-m.m12) m.m22 h2,
      fdiv_eq_err (-m.m01) m.m00 h3]
    rfl
  · intro h0 h4
    have hnn : ¬(ops.asin m.m02 ≠ 0) := fun hc => hc h0
    simp only [get_euler_angle, if_neg hnn, fdiv_eq_err m.m21 m.m11 h4]
    rfl

/-- A matrix hitting the non-degenerate branch with a zero divisor:
`m02 = 1` selects the non-degenerate branch, `m22 = 0` makes the
`rot_x` division a division by zero. -/
def matC8x : Mat := ⟨1, 0, 1, 0, 0, 1, 0, 0, 0, 0, 0, 0⟩

/-- Claim C8, counterexample: at `matC8x` the division by the zero
`m[2][2]` raises (the extraction returns an error), refuting the
claimed totality via non-finite propagation. -/
theorem division_by_zero_raises_counterexample :
    get_euler_angle mathOps0 matC8x = Except.error Err.zeroDivision := rfl

/-- A matrix whose second non-degenerate division is by zero:
`m02 = 1`, `m22 = 1`, `m00 = 0`. -/
def matC8w : Mat := ⟨0, 1, 1, 0, 0, 1, 0, 0, 0, 0, 1, 0⟩

theorem division_by_zero_raises_witness :
    get_euler_angle mathOps0 matC8w = Except.error Err.zeroDivision :=
  (division_by_zero_raises mathOps0 matC8w).2.1 (by decide) (by decide) (by decide)

/-- Binding a successful `Except` computation runs the continuation. -/
theorem except_bind_ok {ε α β : Type} (a : α) (f : α → Except ε β) :
    (Except.ok a >>= f) = f a := rfl

/-- Binding a failed `Except` computation propagates the failure. -/
theorem except_bind_err {ε α β : Type} (e : ε) (f : α → Except ε β) :
    (Except.error e >>= f) = Except.error e := rfl

/-- Claim C3: with a standard (reference) device configured and
resolved to slot `i`, the calibration offset is exactly the negated Y
translation of the reference pose plus `delta`, and the streaming loop
is entered at tick 0 with that fixed offset; with no standard device,
the offset is exactly `0`. -/
theorem calibration_offset_correct (ops : MathOps) (env : ServerEnv)
    (s : String) (i : Nat) (delta : ℚ) (idxs : List Nat) (fuel : Nat)
    (href : get_device_index env.slots s false = Except.ok (some i)) :
    compute_y_delta env.slots env.posesInit (some s) delta =
      Except.ok (-1 * (env.posesInit i).m13 + delta) ∧
    run_calibrated ops env (some s) delta idxs fuel =
      run_loop ops env.tickEnv env.flag idxs
        (-1 * (env.posesInit i).m13 + delta) fuel 0 ∧
    compute_y_delta env.slots env.posesInit none delta = Except.ok 0 ∧
    run_calibrated ops env none delta idxs fuel =
      run_loop ops env.tickEnv env.flag idxs 0 fuel 0 := by
  have h1 : compute_y_delta env.slots env.posesInit (some s) delta =
      Except.ok (-1 * (env.posesInit i).m13 + delta) := by
    simp [compute_y_delta, href]
  refine ⟨h1, ?_, rfl, rfl⟩
  unfold run_calibrated
  rw [h1]

/-- Server environment for the calibration witness: one device with
serial REF whose pose has Y translation `6/5 = 1.2`. -/
def envC3 : ServerEnv :=
  ⟨["REF"], fun _ => matRef, fun _ => ⟨some (fun _ => matRef), fun _ => true⟩,
   fun _ => false⟩

theorem calibration_offset_correct_witness :
    compute_y_delta envC3.slots envC3.posesInit (some "REF") (1/20) =
      Except.ok (-23/20) := by
  have h := (calibration_offset_correct mathOps0 envC3 "REF" 0 (1/20) [] 0 rfl).1
  rw [h]
  norm_num [envC3, matRef]

/-- Claim C5: once device resolution succeeds with index list `idxs`,
a length of 0 or more than 8 makes `run_tracker_server` abort with
`InvalidDeviceCount` (the failed count assert) before any message is
sent, while a length between 1 and 8 proceeds to calibration and
streaming. -/
theorem invalid_device_count_aborts_startup (ops : MathOps) (env : ServerEnv)
    (use_device : List String) (ignore : Bool) (standard_device : Option String)
    (delta : ℚ) (fuel : Nat) (idxs : List Nat)
    (hres : resolve_devices env.slots use_device ignore = Except.ok idxs) :
    (idxs.length = 0 ∨ 8 < idxs.length →
      run_tracker_server ops env use_device ignore standard_device delta fuel =
        ([], Outcome.aborted Err.invalidDeviceCount)) ∧
    (1 ≤ idxs.length → idxs.length ≤ 8 →
      run_tracker_server ops env use_device ignore standard_device delta fuel =
        run_calibrated ops env standard_device delta idxs fuel) := by
  constructor
  · intro hbad
    have hc : ¬(0 < idxs.length ∧ idxs.length < 9) := by omega
    unfold run_tracker_server
    rw [hres]
    simp only [if_neg hc]
  · intro h1 h2
    have hc : 0 < idxs.length ∧ idxs.length < 9 := by omega
    unfold run_tracker_server
    rw [hres]
    simp only [if_pos hc]

theorem invalid_device_count_aborts_startup_witness :
    run_tracker_server mathOps0 envC9 [] false none 0 1 =
      ([], Outcome.aborted Err.invalidDeviceCount) :=
  (invalid_device_count_aborts_startup mathOps0 envC9 [] false none 0 1 []
    rfl).1 (Or.inl rfl)

/-- Claim C1: in a tick whose bulk pose read, transforms and sends all
succeed, with `k` resolved devices exactly `4 * k` messages are
emitted, grouped per channel `n` (the device's position in the
resolved list plus one) in resolved-list order, each group in the
fixed order position (with negated raw X and offset Y), rotation/x,
rotation/y, rotation/z under the per-channel namespace
`/tracking/trackers/n`. -/
theorem tick_emits_four_messages_per_device (ops : MathOps) (poses : Nat → Mat)
    (sendOk : Nat → Bool) (idxs : List Nat) (y_delta : ℚ) (f : Nat → ℚ × ℚ × ℚ)
    (heuler : ∀ p ∈ idxs.enum, get_euler_angle ops (poses p.2) = Except.ok (f p.2))
    (hsend : ∀ c, sendOk c = true) :
    run_tick ops ⟨some poses, sendOk⟩ idxs y_delta =
      (idxs.enum.flatMap fun p => track_group (p.1 + 1) (poses p.2) (f p.2) y_delta,
        none) ∧
    (run_tick ops ⟨some poses, sendOk⟩ idxs y_delta).1.length = 4 * idxs.length := by
  have ht : run_tick ops ⟨some poses, sendOk⟩ idxs y_delta =
      run_devices ops poses sendOk y_delta idxs.enum 0 := rfl
  have h := run_devices_ok ops poses sendOk y_delta f hsend idxs.enum 0 heuler
  constructor
  · rw [ht, h]
  · rw [ht, h]
    have hlen : ∀ l : List (Nat × Nat),
        (l.flatMap fun p =>
          track_group (p.1 + 1) (poses p.2) (f p.2) y_delta).length = 4 * l.length := by
      intro l
      induction l with
      | nil => rfl
      | cons p rest ih =>
          rw [List.flatMap_cons, List.length_append, ih]
          have h4 : (track_group (p.1 + 1) (poses p.2) (f p.2) y_delta).length = 4 := rfl
          rw [h4, List.length_cons]
          omega
    simp only [hlen, List.enum_length]

/-- Two-device pose table for the end-to-end tick witness: device 0
has the non-degenerate pose `matA`, device 1 the degenerate `matB`. -/
def poses0 : Nat → Mat := fun j => if j = 0 then matA else matB

/-- The euler triples `get_euler_angle` produces on `poses0` under
`mathOps0`. -/
def eulerVals : Nat → ℚ × ℚ × ℚ := fun j => if j = 0 then (-3, 1, -2) else (2, 0, 0)

theorem tick_emits_four_messages_per_device_witness :
    run_tick mathOps0 ⟨some poses0, fun _ => true⟩ [0, 1] 0 =
      ([⟨trackerAddr 1 "position", [-1, 2, 3]⟩,
        ⟨trackerAddr 1 "rotation/x", [-3]⟩,
        ⟨trackerAddr 1 "rotation/y", [1]⟩,
        ⟨trackerAddr 1 "rotation/z", [-2]⟩,
        ⟨trackerAddr 2 "position", [-4, 5, 6]⟩,
        ⟨trackerAddr 2 "rotation/x", [2]⟩,
        ⟨trackerAddr 2 "rotation/y", [0]⟩,
        ⟨trackerAddr 2 "rotation/z", [0]⟩], none) := by
  have hA : get_euler_angle mathOps0 matA = Except.ok (-3, 1, -2) := by
    simp only [get_euler_angle, if_pos (show mathOps0.asin matA.m02 ≠ 0 by decide),
      fdiv_eq_ok (-matA.m12) matA.m22 (by decide),
      fdiv_eq_ok (-matA.m01) matA.m00 (by decide), except_bind_ok]
    norm_num [matA, mathOps0]
  have hB : get_euler_angle mathOps0 matB = Except.ok (2, 0, 0) := by
    have hz : ¬(mathOps0.asin matB.m02 ≠ 0) := by decide
    simp only [get_euler_angle, if_neg hz,
      fdiv_eq_ok matB.m21 matB.m11 (by decide), except_bind_ok]
    norm_num [matB, mathOps0]
  have heuler : ∀ p ∈ ([0, 1] : List Nat).enum,
      get_euler_angle mathOps0 (poses0 p.2) = Except.ok (eulerVals p.2) := by
    intro p hp
    fin_cases hp
    · simpa [poses0, eulerVals] using hA
    · simpa [poses0, eulerVals] using hB
  have h := (tick_emits_four_messages_per_device mathOps0 poses0 (fun _ => true)
    [0, 1] 0 eulerVals heuler (fun _ => rfl)).1
  rw [h]
  have he : ([0, 1] : List Nat).enum = [(0, 0), (1, 1)] := rfl
  rw [he]
  norm_num [track_group, poses0, eulerVals, matA, matB]

/-- Claim C6: a tick that starts with the termination flag set sends
zero messages and ends the loop in the clean `terminated` state, with
no error; and `terminated` arises only from the flag having been
observed set — it is the sole non-error exit of the loop. -/
theorem termination_flag_exits_cleanly (ops : MathOps) (env : Nat → TickEnv)
    (flag : Nat → Bool) (idxs : List Nat) (y_delta : ℚ) (fuel t : Nat)
    (hf : flag t = true) :
    run_loop ops env flag idxs y_delta (fuel + 1) t = ([], Outcome.terminated) ∧
    ∀ (fuel2 t2 : Nat),
      (run_loop ops env flag idxs y_delta fuel2 t2).2 = Outcome.terminated →
      ∃ s, flag s = true := by
  constructor
  · rw [run_loop, if_pos hf]
  · exact fun fuel2 t2 h =>
      run_loop_terminated_iff_flag ops env flag idxs y_delta fuel2 t2 h

/-- A tick environment with a healthy pose read and transport. -/
def tickEnvOk : TickEnv := ⟨some poses0, fun _ => true⟩

theorem termination_flag_exits_cleanly_witness :
    run_loop mathOps0 (fun _ => tickEnvOk) (fun _ => true) [0] 0 1 0 =
      ([], Outcome.terminated) :=
  (termination_flag_exits_cleanly mathOps0 (fun _ => tickEnvOk) (fun _ => true)
    [0] 0 0 0 rfl).1

/-- Claim C7: if the flag is down and the tick body fails — bulk pose
read, transform or send — with partial messages `msgs` and error `e`,
the whole loop run ends right there with exactly `msgs` and the
`aborted e` outcome, however much fuel remains: the tick is not
retried, the loop does not resume, and no error kind is locally
recovered. -/
theorem tick_failure_aborts_loop (ops : MathOps) (env : Nat → TickEnv)
    (flag : Nat → Bool) (idxs : List Nat) (y_delta : ℚ) (fuel t : Nat)
    (msgs : List Msg) (e : Err)
    (hf : flag t = false)
    (ht : run_tick ops (env t) idxs y_delta = (msgs, some e)) :
    run_loop ops env flag idxs y_delta (fuel + 1) t =
      (msgs, Outcome.aborted e) := by
  rw [run_loop, if_neg (by simp [hf]), ht]

/-- A tick environment whose bulk pose read fails. -/
def tickEnvFail : TickEnv := ⟨none, fun _ => true⟩

theorem tick_failure_aborts_loop_witness :
    run_loop mathOps0 (fun _ => tickEnvFail) (fun _ => false) [0] 0 3 0 =
      ([], Outcome.aborted Err.readFailure) :=
  tick_failure_aborts_loop mathOps0 (fun _ => tickEnvFail) (fun _ => false)
    [0] 0 2 0 [] Err.readFailure rfl rfl
